import Mathlib

/-!
Verification development for `kernel/lib/alf_queue_bench.c`, a benchmark
module exercising an external array-based lock-free (ALF) MPMC queue.

The benchmark code is embedded shallowly:
* machine integers become `Nat` with explicit truncation where the C code
  converts (`toInt32` models the implicit `uint64_t` → `int` conversion at
  each workload function's `return loops_cnt;`);
* the external queue (`linux/alf_queue.h`, not part of this repository) is
  an abstract model `QueueModel`: each enqueue/dequeue either succeeds with
  a new queue state or reports failure (the C callers only test `< 0`);
* the measured loops become fuel-indexed recursive functions returning
  `Except` (error = some queue call returned a negative value), threading
  the queue state, the `loops_cnt` accumulator and the number of queue
  calls made;
* observable side effects of a workload function are gathered in
  `BenchOut`: the `int` return value, the final queue state, whether
  `time_bench_start` was reached, how many `pr_warn` warnings were
  emitted, how many queue operations were invoked, and the `uint64_t`
  count handed to `time_bench_stop` (when it was reached).
-/

namespace AlfQueueBench

/-- The C `int` value obtained from a `uint64_t` (here: `Nat`) accumulator
at `return loops_cnt;`: reduce modulo 2^32 and reinterpret the result as a
two's-complement signed 32-bit value (gcc/kernel conversion semantics). -/
def toInt32 (n : Nat) : Int :=
  let m : Nat := n % 2^32
  if m < 2^31 then (m : Int) else (m : Int) - 2^32

/-- Modelled from the spec: the external ALF queue of `linux/alf_queue.h`
(not in this repository) at its interface boundary (§6): `enqueue(handle,
ptrs, count)` / `dequeue(handle, out, count)` return a transferred count or
a negative error; the benchmark only tests for a negative result, so a call
is modelled as returning `some newState` (success) or `none` (negative). -/
structure QueueModel (Q : Type) where
  enqueue : Q → Nat → Option Q
  dequeue : Q → Nat → Option Q

/-- The queue never reports failure, on any state and any width. -/
def NeverFails {Q : Type} (M : QueueModel Q) : Prop :=
  (∀ q n, ∃ q', M.enqueue q n = some q') ∧
  (∀ q n, ∃ q', M.dequeue q n = some q')

/-- Observable outcome of one workload function invocation. -/
structure BenchOut (Q : Type) where
  ret : Int
  queue : Option Q
  timerStarted : Bool
  warnings : Nat
  calls : Nat
  reported : Option Nat
  deriving Repr, DecidableEq

/-- The measured loop of `time_bench_single_enqueue_dequeue` (lines 60-68):
per iteration one single-item enqueue (count and call accounting `+1`), a
compiler barrier (no observable effect), one single-item dequeue (`+1`).
A negative queue result jumps to `fail`, modelled as `Except.error`
carrying the queue state and calls made so far. -/
def singleLoop {Q : Type} (M : QueueModel Q) :
    Nat → Q → Nat → Nat → Except (Q × Nat) (Nat × Q × Nat)
  | 0, q, cnt, calls => .ok (cnt, q, calls)
  | n+1, q, cnt, calls =>
    match M.enqueue q 1 with
    | none => .error (q, calls + 1)
    | some q1 =>
      match M.dequeue q1 1 with
      | none => .error (q1, calls + 2)
      | some q2 => singleLoop M n q2 (cnt + 1 + 1) (calls + 2)

/-- Inner enqueue loop of `time_multi_enqueue_dequeue` (lines 105-109):
`elems` single-item enqueues, each counting one operation. -/
def enqLoop {Q : Type} (M : QueueModel Q) :
    Nat → Q → Nat → Nat → Except (Q × Nat) (Nat × Q × Nat)
  | 0, q, cnt, calls => .ok (cnt, q, calls)
  | n+1, q, cnt, calls =>
    match M.enqueue q 1 with
    | none => .error (q, calls + 1)
    | some q1 => enqLoop M n q1 (cnt + 1) (calls + 1)

/-- Inner dequeue loop of `time_multi_enqueue_dequeue` (lines 111-115):
`elems` single-item dequeues, each counting one operation. -/
def deqLoop {Q : Type} (M : QueueModel Q) :
    Nat → Q → Nat → Nat → Except (Q × Nat) (Nat × Q × Nat)
  | 0, q, cnt, calls => .ok (cnt, q, calls)
  | n+1, q, cnt, calls =>
    match M.dequeue q 1 with
    | none => .error (q, calls + 1)
    | some q1 => deqLoop M n q1 (cnt + 1) (calls + 1)

/-- The measured outer loop of `time_multi_enqueue_dequeue` (lines
104-116): per iteration, `elems` enqueues, a barrier, `elems` dequeues. -/
def multiLoop {Q : Type} (M : QueueModel Q) :
    Nat → Nat → Q → Nat → Nat → Except (Q × Nat) (Nat × Q × Nat)
  | 0, _, q, cnt, calls => .ok (cnt, q, calls)
  | i+1, elems, q, cnt, calls =>
    match enqLoop M elems q cnt calls with
    | .error e => .error e
    | .ok (c1, q1, k1) =>
      match deqLoop M elems q1 c1 k1 with
      | .error e => .error e
      | .ok (c2, q2, k2) => multiLoop M i elems q2 c2 k2

/-- The measured loop of `time_BULK_enqueue_dequeue` (lines 157-165): per
iteration one bulk enqueue of `bulk` items (`loops_cnt += bulk`), a
barrier, one bulk dequeue of `bulk` items (`loops_cnt += bulk`). -/
def bulkLoop {Q : Type} (M : QueueModel Q) :
    Nat → Nat → Q → Nat → Nat → Except (Q × Nat) (Nat × Q × Nat)
  | 0, _, q, cnt, calls => .ok (cnt, q, calls)
  | i+1, bulk, q, cnt, calls =>
    match M.enqueue q bulk with
    | none => .error (q, calls + 1)
    | some q1 =>
      match M.dequeue q1 bulk with
      | none => .error (q1, calls + 2)
      | some q2 => bulkLoop M i bulk q2 (cnt + bulk + bulk) (calls + 2)

/-- `time_bench_single_enqueue_dequeue` (lines 38-74): NULL-queue check
(return -1), overflow guard `loops * 2 >= (1<<32)-1` (return 0 before
`time_bench_start`), the measured loop, `return loops_cnt` truncated to
`int`; on `fail` it returns 0 without calling `time_bench_stop`. -/
def time_bench_single_enqueue_dequeue {Q : Type} (M : QueueModel Q)
    (loops : Nat) (data : Option Q) : BenchOut Q :=
  match data with
  | none => ⟨-1, none, false, 0, 0, none⟩
  | some queue =>
    if loops * 2 ≥ 2^32 - 1 then ⟨0, some queue, false, 0, 0, none⟩
    else
      match singleLoop M loops queue 0 0 with
      | .error (q', calls) => ⟨0, some q', true, 0, calls, none⟩
      | .ok (cnt, q', calls) => ⟨toInt32 cnt, some q', true, 0, calls, some cnt⟩

/-- `time_multi_enqueue_dequeue` (lines 80-123): NULL-queue check (return
-1), overflow guard `loops * 2 * elems >= (1<<32)-1` (return 0), the
measured loop, `return loops_cnt` truncated to `int`; on `fail` it
returns -1. -/
def time_multi_enqueue_dequeue {Q : Type} (M : QueueModel Q)
    (loops elems : Nat) (data : Option Q) : BenchOut Q :=
  match data with
  | none => ⟨-1, none, false, 0, 0, none⟩
  | some queue =>
    if loops * 2 * elems ≥ 2^32 - 1 then ⟨0, some queue, false, 0, 0, none⟩
    else
      match multiLoop M loops elems queue 0 0 with
      | .error (q', calls) => ⟨-1, some q', true, 0, calls, none⟩
      | .ok (cnt, q', calls) => ⟨toInt32 cnt, some q', true, 0, calls, some cnt⟩

/-- `MAX_BULK` (line 128): capacity of the local `objs`/`deq_objs`
buffers of the bulk variant. -/
def MAX_BULK : Nat := 32

/-- `time_BULK_enqueue_dequeue` (lines 125-172): NULL-queue check (return
-1); if `bulk > MAX_BULK`, `pr_warn` once and clamp `bulk = MAX_BULK`;
overflow guard `loops * bulk * 2 >= (1<<32)-1` on the clamped width
(return 0); fake-pointer initialisation of the local buffer (no observable
effect); the measured loop; `return loops_cnt` truncated to `int`; on
`fail` it returns -1. -/
def time_BULK_enqueue_dequeue {Q : Type} (M : QueueModel Q)
    (loops step : Nat) (data : Option Q) : BenchOut Q :=
  match data with
  | none => ⟨-1, none, false, 0, 0, none⟩
  | some queue =>
    let warn := if step > MAX_BULK then 1 else 0
    let bulk := if step > MAX_BULK then MAX_BULK else step
    if loops * bulk * 2 ≥ 2^32 - 1 then ⟨0, some queue, false, warn, 0, none⟩
    else
      match bulkLoop M loops bulk queue 0 0 with
      | .error (q', calls) => ⟨-1, some q', true, warn, calls, none⟩
      | .ok (cnt, q', calls) => ⟨toInt32 cnt, some q', true, warn, calls, some cnt⟩

/-- The counted empty loop of `time_bench_for_loop` (lines 30-33): one
`loops_cnt++` per iteration, separated by compiler barriers. -/
def forLoopCount : Nat → Nat
  | 0 => 0
  | n+1 => forLoopCount n + 1

/-- `time_bench_for_loop` (lines 22-36): run the empty counted loop and
return the accumulated `uint64_t` counter through the `int` return type.
It takes no queue and touches no state outside its locals. -/
def time_bench_for_loop (loops : Nat) : Int :=
  toInt32 (forLoopCount loops)

/-- Outcome of `run_benchmark_tests`: its `int` return value
(`passed_count`), the calibration result, and the outcomes of the seven
queue workload invocations in program order. -/
structure DriverOut (Q : Type) where
  ret : Int
  calibration : Int
  workloads : List (BenchOut Q)

/-- `run_benchmark_tests` (lines 176-213): `loops = 10000000`; calibrate
with `time_bench_for_loop` at `loops*1000` (32-bit wrap of the `uint32_t`
product); allocate the queue (`alloc` is the allocation result, `none`
modelling a NULL return of `alf_queue_alloc`); run the seven workload
configurations; free the queue; return `passed_count`, which is
initialised to 0 and never changed. -/
def run_benchmark_tests {Q : Type} (M : QueueModel Q) (alloc : Option Q) :
    DriverOut Q :=
  let loops : Nat := 10000000
  let cal := time_bench_for_loop (loops * 1000 % 2^32)
  let r1 := time_bench_single_enqueue_dequeue M loops alloc
  let r2 := time_multi_enqueue_dequeue M (loops / 100) 128 alloc
  let b2 := time_BULK_enqueue_dequeue M loops 2 alloc
  let b4 := time_BULK_enqueue_dequeue M loops 4 alloc
  let b6 := time_BULK_enqueue_dequeue M loops 6 alloc
  let b8 := time_BULK_enqueue_dequeue M loops 8 alloc
  let b16 := time_BULK_enqueue_dequeue M loops 16 alloc
  ⟨0, cal, [r1, r2, b2, b4, b6, b8, b16]⟩

/-- The errno value `ECANCELED` used by the module init function. -/
def ECANCELED : Int := 125

/-- `alf_queue_bench_module_init` (lines 215-226): return `-ECANCELED` if
`run_benchmark_tests()` is negative, else 0. -/
def alf_queue_bench_module_init {Q : Type} (M : QueueModel Q)
    (alloc : Option Q) : Int :=
  if (run_benchmark_tests M alloc).ret < 0 then -ECANCELED else 0

/-- A concrete queue model that never fails: the state counts the items
currently held. -/
def countQueue : QueueModel Nat :=
  { enqueue := fun q n => some (q + n), dequeue := fun q n => some (q - n) }

/-- A concrete queue model whose dequeue always reports failure. -/
def deqAlwaysFails : QueueModel Nat :=
  { enqueue := fun q _ => some q, dequeue := fun _ _ => none }

/-- A concrete queue model whose fifth dequeue reports failure: the state
counts completed dequeues. -/
def deqFailsAtFifth : QueueModel Nat :=
  { enqueue := fun q _ => some q,
    dequeue := fun q _ => if q = 4 then none else some (q + 1) }

lemma countQueue_nf : NeverFails countQueue :=
  ⟨fun q n => ⟨q + n, rfl⟩, fun q n => ⟨q - n, rfl⟩⟩

lemma toInt32_eq_self (n : Nat) (h : n < 2^31) : toInt32 n = (n : Int) := by
  have hlt : n < 2^32 := by omega
  simp only [toInt32, Nat.mod_eq_of_lt hlt]
  rw [if_pos h]

lemma toInt32_ne_of_big (n : Nat) (h1 : 2^31 - 1 < n) (h2 : n < 2^32) :
    toInt32 n ≠ (n : Int) := by
  simp only [toInt32, Nat.mod_eq_of_lt h2]
  rw [if_neg (by omega)]
  omega

lemma forLoopCount_eq (n : Nat) : forLoopCount n = n := by
  induction n with
  | zero => rfl
  | succ n ih => simp [forLoopCount, ih]

lemma singleLoop_nf {Q : Type} (M : QueueModel Q) (hM : NeverFails M) :
    ∀ (n : Nat) (q : Q) (cnt calls : Nat),
      ∃ q', singleLoop M n q cnt calls = .ok (cnt + 2 * n, q', calls + 2 * n) := by
  intro n
  induction n with
  | zero => intro q cnt calls; exact ⟨q, by simp [singleLoop]⟩
  | succ n ih =>
    intro q cnt calls
    obtain ⟨q1, h1⟩ := hM.1 q 1
    obtain ⟨q2, h2⟩ := hM.2 q1 1
    obtain ⟨q', h3⟩ := ih q2 (cnt + 1 + 1) (calls + 2)
    refine ⟨q', ?_⟩
    simp only [singleLoop, h1, h2, h3, Except.ok.injEq, Prod.mk.injEq]
    refine ⟨by omega, trivial, by omega⟩

lemma enqLoop_nf {Q : Type} (M : QueueModel Q) (hM : NeverFails M) :
    ∀ (n : Nat) (q : Q) (cnt calls : Nat),
      ∃ q', enqLoop M n q cnt calls = .ok (cnt + n, q', calls + n) := by
  intro n
  induction n with
  | zero => intro q cnt calls; exact ⟨q, by simp [enqLoop]⟩
  | succ n ih =>
    intro q cnt calls
    obtain ⟨q1, h1⟩ := hM.1 q 1
    obtain ⟨q', h3⟩ := ih q1 (cnt + 1) (calls + 1)
    refine ⟨q', ?_⟩
    simp only [enqLoop, h1, h3, Except.ok.injEq, Prod.mk.injEq]
    refine ⟨by omega, trivial, by omega⟩

lemma deqLoop_nf {Q : Type} (M : QueueModel Q) (hM : NeverFails M) :
    ∀ (n : Nat) (q : Q) (cnt calls : Nat),
      ∃ q', deqLoop M n q cnt calls = .ok (cnt + n, q', calls + n) := by
  intro n
  induction n with
  | zero => intro q cnt calls; exact ⟨q, by simp [deqLoop]⟩
  | succ n ih =>
    intro q cnt calls
    obtain ⟨q1, h1⟩ := hM.2 q 1
    obtain ⟨q', h3⟩ := ih q1 (cnt + 1) (calls + 1)
    refine ⟨q', ?_⟩
    simp only [deqLoop, h1, h3, Except.ok.injEq, Prod.mk.injEq]
    refine ⟨by omega, trivial, by omega⟩

lemma multiLoop_nf {Q : Type} (M : QueueModel Q) (hM : NeverFails M) :
    ∀ (i elems : Nat) (q : Q) (cnt calls : Nat),
      ∃ q', multiLoop M i elems q cnt calls =
        .ok (cnt + 2 * elems * i, q', calls + 2 * elems * i) := by
  intro i
  induction i with
  | zero => intro elems q cnt calls; exact ⟨q, by simp [multiLoop]⟩
  | succ i ih =>
    intro elems q cnt calls
    obtain ⟨q1, h1⟩ := enqLoop_nf M hM elems q cnt calls
    obtain ⟨q2, h2⟩ := deqLoop_nf M hM elems q1 (cnt + elems) (calls + elems)
    obtain ⟨q', h3⟩ := ih elems q2 (cnt + elems + elems) (calls + elems + elems)
    refine ⟨q', ?_⟩
    simp only [multiLoop, h1, h2, h3, Except.ok.injEq, Prod.mk.injEq]
    refine ⟨by ring, trivial, by ring⟩

lemma bulkLoop_nf {Q : Type} (M : QueueModel Q) (hM : NeverFails M) :
    ∀ (i bulk : Nat) (q : Q) (cnt calls : Nat),
      ∃ q', bulkLoop M i bulk q cnt calls =
        .ok (cnt + 2 * bulk * i, q', calls + 2 * i) := by
  intro i
  induction i with
  | zero => intro bulk q cnt calls; exact ⟨q, by simp [bulkLoop]⟩
  | succ i ih =>
    intro bulk q cnt calls
    obtain ⟨q1, h1⟩ := hM.1 q bulk
    obtain ⟨q2, h2⟩ := hM.2 q1 bulk
    obtain ⟨q', h3⟩ := ih bulk q2 (cnt + bulk + bulk) (calls + 2)
    refine ⟨q', ?_⟩
    simp only [bulkLoop, h1, h2, h3, Except.ok.injEq, Prod.mk.injEq]
    refine ⟨by ring, trivial, by ring⟩

/-- C7 (amended): for every requested iteration count at most 2^31 - 1,
the Loop-Overhead Calibrator runs the empty counted loop, incrementing its
local counter once per iteration, and returns a total count exactly equal
to the requested iteration count; it takes no queue and has no effect on
any other state. (For larger counts the `int` return type cannot carry the
count.) -/
theorem for_loop_returns_count (loops : Nat) (h : loops ≤ 2^31 - 1) :
    time_bench_for_loop loops = (loops : Int) := by
  unfold time_bench_for_loop
  rw [forLoopCount_eq]
  exact toInt32_eq_self _ (by omega)

/-- Witness for C7: a requested count of 1000 is returned exactly. -/
theorem for_loop_returns_count_witness :
    time_bench_for_loop 1000 = (1000 : Int) :=
  for_loop_returns_count 1000 (by decide)

/-- C7 counterexample: at the requested iteration count 2^31 = 2147483648
the calibrator does not return a count equal to the request — the counter
comes back through the signed 32-bit `int` return type as -2^31. -/
theorem for_loop_large_count_truncates :
    time_bench_for_loop 2147483648 ≠ (2147483648 : Int) := by
  unfold time_bench_for_loop
  rw [forLoopCount_eq]
  decide

/-- On a never-failing queue, the Single-Op variant with a guard-passing
loop count runs the full measured loop: 2*loops operations counted and
reported, the counter returned through `toInt32`. -/
lemma single_nf_eval {Q : Type} (M : QueueModel Q) (hM : NeverFails M)
    (loops : Nat) (q : Q) (hguard : loops * 2 < 2^32 - 1) :
    ∃ q', time_bench_single_enqueue_dequeue M loops (some q)
      = ⟨toInt32 (2 * loops), some q', true, 0, 2 * loops, some (2 * loops)⟩ := by
  obtain ⟨q', hq'⟩ := singleLoop_nf M hM loops q 0 0
  refine ⟨q', ?_⟩
  simp only [time_bench_single_enqueue_dequeue]
  rw [if_neg (by omega), hq']
  simp

/-- On a never-failing queue, the Unbatched-Multi variant with a
guard-passing configuration runs the full measured loop: 2*loops*elems
operations counted and reported, the counter returned through `toInt32`. -/
lemma multi_nf_eval {Q : Type} (M : QueueModel Q) (hM : NeverFails M)
    (loops elems : Nat) (q : Q) (hguard : loops * 2 * elems < 2^32 - 1) :
    ∃ q', time_multi_enqueue_dequeue M loops elems (some q)
      = ⟨toInt32 (2 * loops * elems), some q', true, 0, 2 * loops * elems,
         some (2 * loops * elems)⟩ := by
  obtain ⟨q', hq'⟩ := multiLoop_nf M hM loops elems q 0 0
  refine ⟨q', ?_⟩
  simp only [time_multi_enqueue_dequeue]
  rw [if_neg (by omega), hq']
  have e : 2 * elems * loops = 2 * loops * elems := by ring
  simp only [Nat.zero_add, e]

/-- On a never-failing queue, the Bulk-Batched variant with a
guard-passing configuration (guard taken on the clamped width) runs the
full measured loop: 2*loops*clamped operations counted and reported in
2*loops bulk calls, the counter returned through `toInt32`, with one
warning exactly when the requested width was clamped. -/
lemma bulk_nf_eval {Q : Type} (M : QueueModel Q) (hM : NeverFails M)
    (loops step : Nat) (q : Q)
    (hguard : loops * (if step > MAX_BULK then MAX_BULK else step) * 2
      < 2^32 - 1) :
    ∃ q', time_BULK_enqueue_dequeue M loops step (some q)
      = ⟨toInt32 (2 * loops * (if step > MAX_BULK then MAX_BULK else step)),
         some q', true, (if step > MAX_BULK then 1 else 0), 2 * loops,
         some (2 * loops * (if step > MAX_BULK then MAX_BULK else step))⟩ := by
  obtain ⟨q', hq'⟩ :=
    bulkLoop_nf M hM loops (if step > MAX_BULK then MAX_BULK else step) q 0 0
  refine ⟨q', ?_⟩
  simp only [time_BULK_enqueue_dequeue]
  rw [if_neg (by omega), hq']
  have e : 2 * (if step > MAX_BULK then MAX_BULK else step) * loops
      = 2 * loops * (if step > MAX_BULK then MAX_BULK else step) := by ring
  simp only [Nat.zero_add, e]

/-- C1 (amended): for every loop count N with 2*N ≤ 2^31 - 1 and a
non-null queue whose enqueue and dequeue never report failure, the
Single-Op variant returns an operation count exactly equal to 2*N; in
particular, with loop_count = 1_000_000 it returns 2_000_000. -/
theorem single_op_returns_twice_loops {Q : Type} (M : QueueModel Q)
    (hM : NeverFails M) (loops : Nat) (q : Q) (h : 2 * loops ≤ 2^31 - 1) :
    (time_bench_single_enqueue_dequeue M loops (some q)).ret
      = ((2 * loops : Nat) : Int) := by
  obtain ⟨q', hq'⟩ := single_nf_eval M hM loops q (by omega)
  rw [hq']
  exact toInt32_eq_self (2 * loops) (by omega)

/-- Witness for C1 at the spec scenario: loop_count = 1_000_000 against a
never-failing queue returns 2_000_000. -/
theorem single_op_returns_twice_loops_witness :
    (time_bench_single_enqueue_dequeue countQueue 1000000 (some 0)).ret
      = (2000000 : Int) := by
  have h := single_op_returns_twice_loops countQueue countQueue_nf 1000000 0
    (by decide)
  simpa using h

/-- C1 counterexample: loop_count 2^30 = 1073741824 satisfies the claim's
bound 2*N < 2^32 - 1 and the queue never fails, yet the Single-Op variant
does not return 2*N = 2^31 (the `int` return is -2^31). -/
theorem single_op_large_count_truncates :
    2 * 1073741824 < 2^32 - 1 ∧ NeverFails countQueue ∧
    (time_bench_single_enqueue_dequeue countQueue 1073741824 (some 0)).ret
      ≠ ((2 * 1073741824 : Nat) : Int) := by
  refine ⟨by decide, countQueue_nf, ?_⟩
  obtain ⟨q', hq'⟩ := single_nf_eval countQueue countQueue_nf 1073741824 0
    (by decide)
  rw [hq']
  exact toInt32_ne_of_big (2 * 1073741824) (by decide) (by decide)

/-- C2 (amended): for every loop count N and inner width elems with
2*N*elems ≤ 2^31 - 1 and a non-null queue whose operations never fail, the
Unbatched-Multi variant returns an operation count exactly equal to
2*N*elems; in particular, with loop_count = 100_000 and elems = 128 it
returns 25_600_000. -/
theorem multi_op_returns_count {Q : Type} (M : QueueModel Q)
    (hM : NeverFails M) (loops elems : Nat) (q : Q)
    (h : 2 * loops * elems ≤ 2^31 - 1) :
    (time_multi_enqueue_dequeue M loops elems (some q)).ret
      = ((2 * loops * elems : Nat) : Int) := by
  have e1 : loops * 2 * elems = 2 * loops * elems := by ring
  obtain ⟨q', hq'⟩ := multi_nf_eval M hM loops elems q (by rw [e1]; omega)
  rw [hq']
  exact toInt32_eq_self (2 * loops * elems) (by omega)

/-- Witness for C2 at the spec scenario: loop_count = 100_000 and
elems = 128 against a never-failing queue returns 25_600_000. -/
theorem multi_op_returns_count_witness :
    (time_multi_enqueue_dequeue countQueue 100000 128 (some 0)).ret
      = (25600000 : Int) := by
  have h := multi_op_returns_count countQueue countQueue_nf 100000 128 0
    (by decide)
  simpa using h

/-- C2 counterexample: loop_count 2^30 = 1073741824 with elems = 1
satisfies the claim's bound 2*N*elems < 2^32 - 1 and the queue never
fails, yet the Unbatched-Multi variant does not return 2*N*elems = 2^31
(the `int` return is -2^31). -/
theorem multi_op_large_count_truncates :
    2 * 1073741824 * 1 < 2^32 - 1 ∧ NeverFails countQueue ∧
    (time_multi_enqueue_dequeue countQueue 1073741824 1 (some 0)).ret
      ≠ ((2 * 1073741824 * 1 : Nat) : Int) := by
  refine ⟨by decide, countQueue_nf, ?_⟩
  obtain ⟨q', hq'⟩ := multi_nf_eval countQueue countQueue_nf 1073741824 1 0
    (by decide)
  rw [hq']
  exact toInt32_ne_of_big (2 * 1073741824 * 1) (by decide) (by decide)

/-- C3 (amended): for every bulk width greater than the fixed local
buffer capacity 32 and every loop count N with 2*N*32 ≤ 2^31 - 1, against
a non-null never-failing queue, the Bulk-Batched variant clamps the width
to 32, emits exactly one warning, does not fail the configuration (the
timed loop runs), and the returned operation count reflects the clamped
width 2*N*32, not the requested one; in particular loop_count =
10_000_000 with bulk = 50 returns 640_000_000 with one warning. -/
theorem bulk_clamps_oversized_width {Q : Type} (M : QueueModel Q)
    (hM : NeverFails M) (loops step : Nat) (q : Q)
    (hb : MAX_BULK < step) (h : 2 * loops * MAX_BULK ≤ 2^31 - 1) :
    (time_BULK_enqueue_dequeue M loops step (some q)).warnings = 1
    ∧ (time_BULK_enqueue_dequeue M loops step (some q)).timerStarted = true
    ∧ (time_BULK_enqueue_dequeue M loops step (some q)).ret
        = ((2 * loops * MAX_BULK : Nat) : Int) := by
  have e1 : loops * MAX_BULK * 2 = 2 * loops * MAX_BULK := by ring
  obtain ⟨q', hq'⟩ := bulk_nf_eval M hM loops step q
    (by rw [if_pos hb, e1]; omega)
  simp only [if_pos hb] at hq'
  rw [hq']
  exact ⟨rfl, rfl, toInt32_eq_self (2 * loops * MAX_BULK)
    (by simp only [MAX_BULK] at h ⊢; omega)⟩

/-- Witness for C3 at the spec scenario: loop_count = 10_000_000 with
requested bulk width 50 returns 640_000_000 = 2*N*32 with one warning. -/
theorem bulk_clamps_oversized_width_witness :
    (time_BULK_enqueue_dequeue countQueue 10000000 50 (some 0)).warnings = 1
    ∧ (time_BULK_enqueue_dequeue countQueue 10000000 50 (some 0)).timerStarted
        = true
    ∧ (time_BULK_enqueue_dequeue countQueue 10000000 50 (some 0)).ret
        = (640000000 : Int) := by
  have h := bulk_clamps_oversized_width countQueue countQueue_nf 10000000 50 0
    (by decide) (by decide)
  refine ⟨h.1, h.2.1, ?_⟩
  simpa [MAX_BULK] using h.2.2

/-- C3 counterexample: loop_count 2^25 = 33554432 with requested bulk 50
is clamped (one warning) and runs, but the returned count is not the
clamped product 2*N*32 = 2^31 — the `int` return is -2^31. -/
theorem bulk_clamped_count_truncates :
    MAX_BULK < 50 ∧ NeverFails countQueue ∧
    (time_BULK_enqueue_dequeue countQueue 33554432 50 (some 0)).warnings = 1 ∧
    (time_BULK_enqueue_dequeue countQueue 33554432 50 (some 0)).ret
      ≠ ((2 * 33554432 * 32 : Nat) : Int) := by
  obtain ⟨q', hq'⟩ := bulk_nf_eval countQueue countQueue_nf 33554432 50 0
    (by decide)
  simp only [if_pos (by decide : 50 > MAX_BULK)] at hq'
  rw [hq']
  refine ⟨by decide, countQueue_nf, rfl, ?_⟩
  show toInt32 (2 * 33554432 * MAX_BULK) ≠ ((2 * 33554432 * 32 : Nat) : Int)
  simp only [MAX_BULK]
  exact toInt32_ne_of_big (2 * 33554432 * 32) (by decide) (by decide)

/-- C4 (amended): for every workload variant, if an enqueue or dequeue
call reports failure mid-loop, the variant stops immediately and never
reports a partial count: the Single-Op variant returns 0 while the
Unbatched-Multi and Bulk-Batched variants return -1; in particular a
dequeue failure on iteration 5 of a 100-iteration Single-Op run returns
0, not 10. -/
theorem midloop_failure_no_partial_count {Q1 Q2 Q3 : Type}
    (M1 : QueueModel Q1) (M2 : QueueModel Q2) (M3 : QueueModel Q3)
    (loops1 loops2 elems loops3 step : Nat) (q1 : Q1) (q2 : Q2) (q3 : Q3)
    (e1 : Q1 × Nat) (e2 : Q2 × Nat) (e3 : Q3 × Nat)
    (hg1 : loops1 * 2 < 2^32 - 1)
    (hf1 : singleLoop M1 loops1 q1 0 0 = .error e1)
    (hg2 : loops2 * 2 * elems < 2^32 - 1)
    (hf2 : multiLoop M2 loops2 elems q2 0 0 = .error e2)
    (hg3 : loops3 * (if step > MAX_BULK then MAX_BULK else step) * 2
      < 2^32 - 1)
    (hf3 : bulkLoop M3 loops3 (if step > MAX_BULK then MAX_BULK else step)
      q3 0 0 = .error e3) :
    (time_bench_single_enqueue_dequeue M1 loops1 (some q1)).ret = 0
    ∧ (time_multi_enqueue_dequeue M2 loops2 elems (some q2)).ret = -1
    ∧ (time_BULK_enqueue_dequeue M3 loops3 step (some q3)).ret = -1 := by
  obtain ⟨e1q, e1c⟩ := e1
  obtain ⟨e2q, e2c⟩ := e2
  obtain ⟨e3q, e3c⟩ := e3
  refine ⟨?_, ?_, ?_⟩
  · simp only [time_bench_single_enqueue_dequeue]
    rw [if_neg (by omega), hf1]
  · simp only [time_multi_enqueue_dequeue]
    rw [if_neg (by omega), hf2]
  · simp only [time_BULK_enqueue_dequeue]
    rw [if_neg (by omega), hf3]

/-- Witness for C4: a dequeue failure on iteration 5 of a 100-iteration
Single-Op run returns 0; immediate dequeue failures make the
Unbatched-Multi and Bulk-Batched variants return -1. -/
theorem midloop_failure_no_partial_count_witness :
    (time_bench_single_enqueue_dequeue deqFailsAtFifth 100 (some 0)).ret = 0
    ∧ (time_multi_enqueue_dequeue deqAlwaysFails 1 1 (some 0)).ret = -1
    ∧ (time_BULK_enqueue_dequeue deqAlwaysFails 1 1 (some 0)).ret = -1 :=
  midloop_failure_no_partial_count deqFailsAtFifth deqAlwaysFails
    deqAlwaysFails 100 1 1 1 1 0 0 0 (4, 10) (0, 2) (0, 2)
    (by decide) rfl (by decide) rfl (by decide) rfl

/-- C4 counterexample: the Unbatched-Multi variant hits a dequeue failure
mid-loop (first iteration) and returns -1, not the count of zero completed
operations the claim states for every variant. -/
theorem multi_failure_returns_minus_one :
    multiLoop deqAlwaysFails 1 1 0 0 0 = .error (0, 2)
    ∧ (time_multi_enqueue_dequeue deqAlwaysFails 1 1 (some 0)).ret = -1
    ∧ ((-1 : Int) ≠ 0) :=
  ⟨rfl, rfl, by decide⟩

/-- C5: for every configuration whose total operation count (loop count
times operations per iteration: 2 for Single-Op, 2*elems for
Unbatched-Multi, 2*clamped-bulk for Bulk-Batched) is 2^32 - 1 or above,
the variant rejects the configuration before any timed operation executes
and returns a zero result, leaving the queue's contents unchanged and
invoking no enqueue or dequeue. -/
theorem overflow_guard_rejects_before_timing {Q : Type} (M : QueueModel Q)
    (loops1 loops2 elems loops3 step : Nat) (q1 q2 q3 : Q)
    (h1 : loops1 * 2 ≥ 2^32 - 1)
    (h2 : loops2 * 2 * elems ≥ 2^32 - 1)
    (h3 : loops3 * (if step > MAX_BULK then MAX_BULK else step) * 2
      ≥ 2^32 - 1) :
    ((time_bench_single_enqueue_dequeue M loops1 (some q1)).ret = 0
      ∧ (time_bench_single_enqueue_dequeue M loops1 (some q1)).queue = some q1
      ∧ (time_bench_single_enqueue_dequeue M loops1 (some q1)).timerStarted
          = false
      ∧ (time_bench_single_enqueue_dequeue M loops1 (some q1)).calls = 0)
    ∧ ((time_multi_enqueue_dequeue M loops2 elems (some q2)).ret = 0
      ∧ (time_multi_enqueue_dequeue M loops2 elems (some q2)).queue = some q2
      ∧ (time_multi_enqueue_dequeue M loops2 elems (some q2)).timerStarted
          = false
      ∧ (time_multi_enqueue_dequeue M loops2 elems (some q2)).calls = 0)
    ∧ ((time_BULK_enqueue_dequeue M loops3 step (some q3)).ret = 0
      ∧ (time_BULK_enqueue_dequeue M loops3 step (some q3)).queue = some q3
      ∧ (time_BULK_enqueue_dequeue M loops3 step (some q3)).timerStarted
          = false
      ∧ (time_BULK_enqueue_dequeue M loops3 step (some q3)).calls = 0) := by
  refine ⟨?_, ?_, ?_⟩
  · simp only [time_bench_single_enqueue_dequeue, if_pos h1]
    exact ⟨by trivial, by trivial, by trivial, by trivial⟩
  · simp only [time_multi_enqueue_dequeue, if_pos h2]
    exact ⟨by trivial, by trivial, by trivial, by trivial⟩
  · simp only [time_BULK_enqueue_dequeue, if_pos h3]
    exact ⟨by trivial, by trivial, by trivial, by trivial⟩

/-- Witness for C5: loop counts of 2^31 (total operation count 2^32) make
every variant reject before timing, return 0, and leave the queue alone. -/
theorem overflow_guard_rejects_before_timing_witness :
    ((time_bench_single_enqueue_dequeue countQueue 2147483648 (some 0)).ret = 0
      ∧ (time_bench_single_enqueue_dequeue countQueue 2147483648
          (some 0)).queue = some 0
      ∧ (time_bench_single_enqueue_dequeue countQueue 2147483648
          (some 0)).timerStarted = false
      ∧ (time_bench_single_enqueue_dequeue countQueue 2147483648
          (some 0)).calls = 0)
    ∧ ((time_multi_enqueue_dequeue countQueue 2147483648 1 (some 0)).ret = 0
      ∧ (time_multi_enqueue_dequeue countQueue 2147483648 1 (some 0)).queue
          = some 0
      ∧ (time_multi_enqueue_dequeue countQueue 2147483648 1
          (some 0)).timerStarted = false
      ∧ (time_multi_enqueue_dequeue countQueue 2147483648 1 (some 0)).calls
          = 0)
    ∧ ((time_BULK_enqueue_dequeue countQueue 2147483648 1 (some 0)).ret = 0
      ∧ (time_BULK_enqueue_dequeue countQueue 2147483648 1 (some 0)).queue
          = some 0
      ∧ (time_BULK_enqueue_dequeue countQueue 2147483648 1
          (some 0)).timerStarted = false
      ∧ (time_BULK_enqueue_dequeue countQueue 2147483648 1 (some 0)).calls
          = 0) :=
  overflow_guard_rejects_before_timing countQueue 2147483648 2147483648 1
    2147483648 1 0 0 0 (by decide) (by decide) (by decide)

/-- C8: for every workload variant, a null queue handle makes the variant
return -1 immediately: no timer start, no queue operation, no warning, no
reported count. -/
theorem null_queue_returns_neg_one {Q : Type} (M : QueueModel Q)
    (loops elems step : Nat) :
    time_bench_single_enqueue_dequeue M loops none
        = ⟨-1, none, false, 0, 0, none⟩
    ∧ time_multi_enqueue_dequeue M loops elems none
        = ⟨-1, none, false, 0, 0, none⟩
    ∧ time_BULK_enqueue_dequeue M loops step none
        = ⟨-1, none, false, 0, 0, none⟩ :=
  ⟨rfl, rfl, rfl⟩

/-- C9: in the Bulk-Batched variant, clamping happens before the overflow
guard, so the guard evaluates 2 * loop_count * min(bulk, 32): a
configuration whose requested product 2*loops*bulk is at or above
2^32 - 1 but whose clamped product is below the limit is run (the timer
starts, after the clamping warning), not skipped. -/
theorem bulk_clamp_precedes_overflow_guard {Q : Type} (M : QueueModel Q)
    (loops step : Nat) (q : Q)
    (hb : MAX_BULK < step)
    (hclamped : loops * MAX_BULK * 2 < 2^32 - 1)
    (_hreq : loops * step * 2 ≥ 2^32 - 1) :
    (time_BULK_enqueue_dequeue M loops step (some q)).timerStarted = true
    ∧ (time_BULK_enqueue_dequeue M loops step (some q)).warnings = 1 := by
  simp only [time_BULK_enqueue_dequeue, if_pos hb]
  rw [if_neg (by omega)]
  rcases hres : bulkLoop M loops MAX_BULK q 0 0 with ⟨eq, ec⟩ | ⟨cnt, q', calls⟩ <;>
    exact ⟨rfl, rfl⟩

/-- Witness for C9: loops = 67108863 with requested bulk 50 has requested
product 6710886300 ≥ 2^32 - 1 but clamped product 4294967232 < 2^32 - 1,
and the configuration runs (timer started) with the clamping warning. -/
theorem bulk_clamp_precedes_overflow_guard_witness :
    (time_BULK_enqueue_dequeue countQueue 67108863 50 (some 0)).timerStarted
        = true
    ∧ (time_BULK_enqueue_dequeue countQueue 67108863 50 (some 0)).warnings
        = 1 :=
  bulk_clamp_precedes_overflow_guard countQueue 67108863 50 0 (by decide)
    (by decide) (by decide)

/-- C10: every workload variant accumulates its operation count in a
64-bit unsigned accumulator (reported intact to `time_bench_stop`) but
returns it through a signed 32-bit `int` return type, so for any valid
configuration passing the overflow guard whose total count exceeds
2^31 - 1, the returned value is the count reduced modulo 2^32 and
reinterpreted as signed, which differs from the true count. -/
theorem count_truncated_by_int_return {Q1 Q2 Q3 : Type}
    (M1 : QueueModel Q1) (M2 : QueueModel Q2) (M3 : QueueModel Q3)
    (hM1 : NeverFails M1) (hM2 : NeverFails M2) (hM3 : NeverFails M3)
    (loops1 loops2 elems loops3 step : Nat) (q1 : Q1) (q2 : Q2) (q3 : Q3)
    (ha1 : loops1 * 2 < 2^32 - 1) (hb1 : 2^31 - 1 < 2 * loops1)
    (ha2 : loops2 * 2 * elems < 2^32 - 1)
    (hb2 : 2^31 - 1 < 2 * loops2 * elems)
    (ha3 : loops3 * (if step > MAX_BULK then MAX_BULK else step) * 2
      < 2^32 - 1)
    (hb3 : 2^31 - 1
      < 2 * loops3 * (if step > MAX_BULK then MAX_BULK else step)) :
    ((time_bench_single_enqueue_dequeue M1 loops1 (some q1)).reported
        = some (2 * loops1)
      ∧ (time_bench_single_enqueue_dequeue M1 loops1 (some q1)).ret
          = toInt32 (2 * loops1)
      ∧ toInt32 (2 * loops1) ≠ ((2 * loops1 : Nat) : Int))
    ∧ ((time_multi_enqueue_dequeue M2 loops2 elems (some q2)).reported
        = some (2 * loops2 * elems)
      ∧ (time_multi_enqueue_dequeue M2 loops2 elems (some q2)).ret
          = toInt32 (2 * loops2 * elems)
      ∧ toInt32 (2 * loops2 * elems) ≠ ((2 * loops2 * elems : Nat) : Int))
    ∧ ((time_BULK_enqueue_dequeue M3 loops3 step (some q3)).reported
        = some (2 * loops3 * (if step > MAX_BULK then MAX_BULK else step))
      ∧ (time_BULK_enqueue_dequeue M3 loops3 step (some q3)).ret
          = toInt32 (2 * loops3
              * (if step > MAX_BULK then MAX_BULK else step))
      ∧ toInt32 (2 * loops3 * (if step > MAX_BULK then MAX_BULK else step))
          ≠ ((2 * loops3 * (if step > MAX_BULK then MAX_BULK else step)
              : Nat) : Int)) := by
  obtain ⟨p1, hp1⟩ := single_nf_eval M1 hM1 loops1 q1 ha1
  obtain ⟨p2, hp2⟩ := multi_nf_eval M2 hM2 loops2 elems q2 ha2
  obtain ⟨p3, hp3⟩ := bulk_nf_eval M3 hM3 loops3 step q3 ha3
  rw [hp1, hp2, hp3]
  have e2 : loops2 * 2 * elems = 2 * loops2 * elems := by ring
  have e3 : loops3 * (if step > MAX_BULK then MAX_BULK else step) * 2
      = 2 * loops3 * (if step > MAX_BULK then MAX_BULK else step) := by ring
  rw [e2] at ha2
  rw [e3] at ha3
  exact ⟨⟨rfl, rfl, toInt32_ne_of_big _ hb1 (by omega)⟩,
    ⟨rfl, rfl, toInt32_ne_of_big _ hb2 (by omega)⟩,
    ⟨rfl, rfl, toInt32_ne_of_big _ hb3 (by omega)⟩⟩

/-- Witness for C10: loop count 2^30 (with width 1 where applicable)
passes every guard with true count 2^31, which every variant reports
intact to the harness but returns as toInt32 (2^31) = -2^31 ≠ 2^31. -/
theorem count_truncated_by_int_return_witness :
    ((time_bench_single_enqueue_dequeue countQueue 1073741824
        (some 0)).reported = some 2147483648
      ∧ (time_bench_single_enqueue_dequeue countQueue 1073741824
          (some 0)).ret = -2147483648
      ∧ ((-2147483648 : Int) ≠ (2147483648 : Int)))
    ∧ ((time_multi_enqueue_dequeue countQueue 1073741824 1
        (some 0)).reported = some 2147483648
      ∧ (time_multi_enqueue_dequeue countQueue 1073741824 1 (some 0)).ret
          = -2147483648)
    ∧ ((time_BULK_enqueue_dequeue countQueue 1073741824 1
        (some 0)).reported = some 2147483648
      ∧ (time_BULK_enqueue_dequeue countQueue 1073741824 1 (some 0)).ret
          = -2147483648) := by
  have h := count_truncated_by_int_return countQueue countQueue countQueue
    countQueue_nf countQueue_nf countQueue_nf 1073741824 1073741824 1
    1073741824 1 0 0 0 (by decide) (by decide) (by decide) (by decide)
    (by decide) (by decide)
  obtain ⟨⟨r1, s1, _⟩, ⟨r2, s2, _⟩, ⟨r3, s3, _⟩⟩ := h
  refine ⟨⟨?_, ?_, by decide⟩, ⟨?_, ?_⟩, ⟨?_, ?_⟩⟩
  · simpa using r1
  · rw [s1]; decide
  · simpa using r2
  · rw [s2]; decide
  · simpa using r3
  · rw [s3]; decide

/-- C6 (refuted: the claim describes the intended behaviour, the code
never implements it): when queue allocation fails (`alf_queue_alloc`
returns NULL), `run_benchmark_tests` does not abort — it invokes every
workload with the NULL queue (each returns -1, which is discarded) — and
it returns `passed_count`, which is initialised to 0 and never updated,
so `alf_queue_bench_module_init` returns 0, never `-ECANCELED`. -/
theorem alloc_failure_not_surfaced {Q : Type} (M : QueueModel Q) :
    (run_benchmark_tests M none).ret = 0
    ∧ alf_queue_bench_module_init M none = 0
    ∧ (0 : Int) ≠ -ECANCELED
    ∧ (run_benchmark_tests M none).workloads
        = List.replicate 7 ⟨-1, none, false, 0, 0, none⟩ :=
  ⟨rfl, rfl, by decide, rfl⟩

end AlfQueueBench
